import Mathlib

/-!
Shallow embedding of the `StorageData` lazy persistent cell of the
`storage_data` crate (src/src/lib.rs).

The backing Web Storage is modelled as an explicit `Store` state: an
association list of entries plus three flags describing the environment
(`reachable` models whether `web_sys_storage()` succeeds, `writable`
whether the underlying `setItem` call succeeds, `removable` whether the
underlying `removeItem` call succeeds).  Errors are `Except Unit` since
the Rust code only transports opaque `Box<dyn Error>` values.

A Rust `panic!` (the hard decode-failure path in `resolve`) is modelled
by returning `none`: any operation that can abort returns an `Option`.

Operations additionally return call counters so that the I/O-counting
properties of the spec (number of underlying store get calls and
store-write calls) are statable:
  - a "store get call" is an invocation of `StorageKind::get_item`;
  - a "store-write call" is an invocation of the underlying storage
    `setItem` (it is not performed when the store is unreachable or the
    serializer already failed, matching `StorageKind::set_item`).
-/

/-- The backing Web Storage (one of Local / Session; which one is
irrelevant to the cell's semantics, so a single state type is used). -/
structure Store where
  reachable : Bool
  writable : Bool
  removable : Bool
  entries : List (String × String)

/-- Overwrite (or create) the entry for `key`, as the browser `setItem`. -/
def setEntry (entries : List (String × String)) (key s : String) :
    List (String × String) :=
  entries.filter (fun p => p.1 != key) ++ [(key, s)]

/-- Delete the entry for `key`, as the browser `removeItem`. -/
def removeEntry (entries : List (String × String)) (key : String) :
    List (String × String) :=
  entries.filter (fun p => p.1 != key)

/-- `StorageKind::get_item`: fails when the storage object is unavailable,
otherwise returns the (optional) entry for `key`. -/
def Store.get_item (st : Store) (key : String) : Except Unit (Option String) :=
  if st.reachable then .ok (st.entries.lookup key) else .error ()

/-- `StorageKind::set_item`: obtains the storage object (fails when
unreachable), evaluates the serialized-value thunk (propagating its
error), then performs the underlying write, which may itself fail
(quota and the like, modelled by `writable`).  The `Nat` counts the
underlying store-write calls actually performed. -/
def Store.set_item (st : Store) (key : String) (ser : Except Unit String) :
    Except Unit Unit × Store × Nat :=
  if st.reachable then
    match ser with
    | .error e => (.error e, st, 0)
    | .ok s =>
      if st.writable then
        (.ok (), { st with entries := setEntry st.entries key s }, 1)
      else (.error (), st, 1)
  else (.error (), st, 0)

/-- `StorageKind::remove_item`. -/
def Store.remove_item (st : Store) (key : String) : Except Unit Store :=
  if st.reachable then
    if st.removable then .ok { st with entries := removeEntry st.entries key }
    else .error ()
  else .error ()

/-- Helper: `Result::is_ok`. -/
def exceptIsOk : Except Unit α → Bool
  | .ok _ => true
  | .error _ => false

/-- The free function `get_data_with`: reads the entry for `key`
(`get_item(key).ok().flatten()` collapses both a store error and a
missing entry into `None`, which yields the default), deserializing a
present entry and propagating a deserialization error. -/
def get_data_with (st : Store) (key : String) (default : Unit → V)
    (deserialize : String → Except Unit V) : Except Unit V :=
  match st.get_item key with
  | .error _ => .ok (default ())
  | .ok none => .ok (default ())
  | .ok (some s) =>
    match deserialize s with
    | .ok v => .ok v
    | .error e => .error e

/-- The free function `set_data`: serializes the value and hands the
result to `set_item` (the serializer runs inside `set_item`'s thunk). -/
def set_data (st : Store) (key : String) (v : V)
    (serialize : V → Except Unit String) : Except Unit Unit × Store × Nat :=
  st.set_item key (serialize v)

/-- The `StorageData<Key, Value>` struct.  `value` is the `OnceCell`
cache slot, `mutated` the dirty flag, `panic_on_cannot_deserialize` and
`save_on_drop` the two policy flags.  The `Key` parameter is fixed to
`String` (the code only ever uses it through `AsRef<str>`), and the
storage-kind field is replaced by the explicit `Store` state threaded
through every operation. -/
structure StorageData (V : Type) where
  key : String
  value : Option V
  default_value : Unit → V
  panic_on_cannot_deserialize : Bool
  save_on_drop : Bool
  deserialize_as : String → Except Unit V
  serialize_as : V → Except Unit String
  mutated : Bool

/-- `StorageData::new`: empty cache, both policy flags true, not mutated.
The serializer pair is a parameter because the Rust code selects it by
compile-time feature flags. -/
def StorageData.new (key : String) (default : Unit → V)
    (ser : V → Except Unit String) (deser : String → Except Unit V) :
    StorageData V :=
  ⟨key, none, default, true, true, deser, ser, false⟩

/-- `StorageData::resolve`: `value.get_or_init(...)`.  If the cache is
populated it is returned with no store access; otherwise one
`get_data_with` call is made (exactly one store get call, counted in the
last component), a deserialization error
either aborts (`none`, when `panic_on_cannot_deserialize`) or falls back
to the default, and the obtained value populates the cache. -/
def StorageData.resolve (c : StorageData V) (st : Store) :
    Option (V × StorageData V × Nat) :=
  match c.value with
  | some v => some (v, c, 0)
  | none =>
    match get_data_with st c.key c.default_value c.deserialize_as,
          c.panic_on_cannot_deserialize with
    | .ok v, _ => some (v, { c with value := some v }, 1)
    | .error _, false =>
      some (c.default_value (), { c with value := some (c.default_value ()) }, 1)
    | .error _, true => none

/-- `StorageData::get`: exactly `resolve`. -/
def StorageData.get (c : StorageData V) (st : Store) :
    Option (V × StorageData V × Nat) :=
  c.resolve st

/-- `StorageData::get_mut`: `resolve` followed by
`value.get_mut().unwrap()` (which cannot fail after `resolve` populated
the cache).  Note: it does NOT touch `mutated`. -/
def StorageData.get_mut (c : StorageData V) (st : Store) :
    Option (V × StorageData V × Nat) :=
  c.resolve st

/-- `DerefMut::deref_mut`: sets `mutated = true`, then `get_mut`. -/
def StorageData.deref_mut (c : StorageData V) (st : Store) :
    Option (V × StorageData V × Nat) :=
  StorageData.get_mut { c with mutated := true } st

/-- A caller writing `w` through the mutable reference obtained from
`deref_mut` (i.e. `*cell = w`): the cache slot ends up holding `w`. -/
def StorageData.deref_mut_write (c : StorageData V) (st : Store) (w : V) :
    Option (StorageData V × Nat) :=
  (c.deref_mut st).map (fun r => ({ r.2.1 with value := some w }, r.2.2))

/-- `StorageData::set`: eagerly writes through to the store, then tries
`self.value.set(value)`.  `OnceCell::set` succeeds (storing `value`)
exactly when the slot was empty; when it was already populated the call
fails, `self.value.get().is_some()` holds, and the code replaces the
cell by a fresh empty `OnceCell::new()` — the new value was consumed by
the failed `set` call and is dropped, so the slot ends up EMPTY.
`mutated` is untouched.  The `Nat` counts store-write calls. -/
def StorageData.set (c : StorageData V) (st : Store) (v : V) :
    Except Unit Unit × StorageData V × Store × Nat :=
  let r := set_data st c.key v c.serialize_as
  let couldnt_set_and_it_was_initialized := c.value.isSome
  let c' := if couldnt_set_and_it_was_initialized then { c with value := none }
            else { c with value := some v }
  (r.1, c', r.2.1, r.2.2)

/-- `StorageData::is_set`:
`self.value.get().is_some() || self.storage_kind.get_item(key).is_ok()`.
Note the Rust `is_ok()` is true for `Ok(None)` (reachable store, missing
key). -/
def StorageData.is_set (c : StorageData V) (st : Store) : Bool :=
  c.value.isSome || exceptIsOk (st.get_item c.key)

/-- `StorageData::save`.  `was_changed` is `mutated && cache populated`;
`storage_contains_this_key` is literally `get_item(key).is_ok()` (true
for `Ok(None)` as well).  When `!was_changed && storage_contains_this_key`,
return `Ok(())` at once; otherwise resolve (possibly aborting), write the
resolved value to the store, and clear `mutated` on success.  Returns
(result, cell, store, store get calls, store-write calls). -/
def StorageData.save (c : StorageData V) (st : Store) :
    Option (Except Unit Unit × StorageData V × Store × Nat × Nat) :=
  let was_changed := c.mutated && c.value.isSome
  let storage_contains_this_key := exceptIsOk (st.get_item c.key)
  if !was_changed && storage_contains_this_key then
    some (.ok (), c, st, 1, 0)
  else
    match c.resolve st with
    | none => none
    | some (v, c1, g) =>
      let r := set_data st c1.key v c1.serialize_as
      let c2 := if exceptIsOk r.1 then { c1 with mutated := false } else c1
      some (r.1, c2, r.2.1, 1 + g, r.2.2)

/-- `StorageData::finalize_use(clear, save)`: a conditional (swallowed)
save, a conditional cache clear, and `mutated = false`.  Returns
(cell, store, store get calls, store-write calls); `none` only when the
save path aborted inside `resolve`. -/
def StorageData.finalize_use (c : StorageData V) (st : Store)
    (clear save_q : Bool) : Option (StorageData V × Store × Nat × Nat) :=
  let step :=
    if save_q && c.save_on_drop then
      match c.save st with
      | none => none
      | some (_, c1, st1, g, w) => some (c1, st1, g, w)
    else some (c, st, 0, 0)
  match step with
  | none => none
  | some (c1, st1, g, w) =>
    some ({ c1 with value := (if clear then none else c1.value),
                    mutated := false }, st1, g, w)

/-- `StorageData::remove`: `remove_item(key)?` — on a store error the
`?` returns early and `finalize_use` is NOT reached — then
`finalize_use(true, false)`.  The second match arm is unreachable
(`finalize_use` with `save = false` never calls `save`, hence never
aborts). -/
def StorageData.remove (c : StorageData V) (st : Store) :
    Except Unit Unit × StorageData V × Store :=
  match st.remove_item c.key with
  | .error e => (.error e, c, st)
  | .ok st' =>
    match c.finalize_use st' true false with
    | some (c', st'', _, _) => (.ok (), c', st'')
    | none => (.ok (), c, st')

/-- `Drop::drop`: `finalize_use(true, true)`. -/
def StorageData.drop (c : StorageData V) (st : Store) :
    Option (StorageData V × Store × Nat × Nat) :=
  c.finalize_use st true true

-- Concrete instances used by witnesses and counterexamples.

/-- A concrete codec for `Nat` (the serde shims are external
collaborators, so any total round-tripping codec may stand in for them):
unary encoding. -/
def serNat (n : Nat) : Except Unit String :=
  .ok (String.mk (List.replicate n 'x'))

/-- The matching concrete deserializer for `Nat`. -/
def deserNat (s : String) : Except Unit Nat :=
  if s.data.all (fun ch => ch == 'x') then .ok s.data.length else .error ()

/-- A reachable, fully functional, empty store. -/
def emptyStore : Store := ⟨true, true, true, []⟩

/-- A store whose storage object is unavailable (`window`/storage lookup
fails), so every operation on it errors. -/
def unreachableStore : Store := ⟨false, true, true, []⟩

/-- A reachable store holding an entry for `"count"` whose removal
fails (quota/permission-style failure of `removeItem`). -/
def badRemoveStore : Store := ⟨true, true, false, [("count", "5")]⟩

/-- A reachable store already holding an entry for `"count"`. -/
def storeWithCount : Store := ⟨true, true, true, [("count", "5")]⟩

/-- A reachable store whose entry for `"count"` does not deserialize. -/
def storeBadEntry : Store := ⟨true, true, true, [("count", "oops")]⟩

/-- A reachable store whose writes fail (quota-style failure). -/
def unwritableStore : Store := ⟨true, false, true, []⟩

/-- A freshly constructed cell over the key of the spec's scenario. -/
def countCell : StorageData Nat :=
  StorageData.new "count" (fun _ => 0) serNat deserNat

/-- `countCell` with an already-populated cache slot. -/
def populatedCell : StorageData Nat := { countCell with value := some 5 }

/-- `countCell` with a populated cache slot and the dirty flag set. -/
def dirtyCell : StorageData Nat :=
  { countCell with value := some 5, mutated := true }

/-- `countCell` in soft decode-failure mode. -/
def softCell : StorageData Nat :=
  { countCell with panic_on_cannot_deserialize := false }

-- Helper lemmas shared by the claim theorems.

/-- A successful `resolve` returns the input cell with the cache slot
holding the returned value, and nothing else changed. -/
theorem resolve_some {V : Type} (c : StorageData V) (st : Store) (v : V)
    (c' : StorageData V) (n : Nat) (h : c.resolve st = some (v, c', n)) :
    c' = { c with value := some v } := by
  unfold StorageData.resolve at h
  cases hv : c.value with
  | some w =>
    rw [hv] at h
    simp at h
    obtain ⟨rfl, rfl, -⟩ := h
    cases c
    simp_all
  | none =>
    rw [hv] at h
    cases hg : get_data_with st c.key c.default_value c.deserialize_as with
    | ok w =>
      rw [hg] at h
      simp at h
      obtain ⟨rfl, rfl, -⟩ := h
      rfl
    | error e =>
      rw [hg] at h
      cases hp : c.panic_on_cannot_deserialize with
      | true => rw [hp] at h; simp at h
      | false =>
        rw [hp] at h
        simp at h
        obtain ⟨rfl, rfl, -⟩ := h
        rfl

/-- Over a reachable store, a cell whose dirty flag is false skips the
save entirely: `get_item(key).is_ok()` holds for any reachable store
(even for `Ok(None)`), so `save` returns `Ok(())` after exactly one
store get call and zero store-write calls, changing nothing. -/
theorem save_skip {V : Type} (c : StorageData V) (st : Store)
    (h1 : c.mutated = false) (h2 : st.reachable = true) :
    c.save st = some (.ok (), c, st, 1, 0) := by
  unfold StorageData.save Store.get_item
  rw [h1, h2]
  simp [exceptIsOk]

/-- Looking up `key` after `setEntry` finds the just-written string. -/
theorem lookup_setEntry (es : List (String × String)) (k s : String) :
    (setEntry es k s).lookup k = some s := by
  induction es with
  | nil => simp [setEntry, List.lookup]
  | cons p es ih =>
    by_cases h : p.1 = k
    · simpa [setEntry, List.filter_cons, h] using ih
    · have h2 : (k == p.1) = false := by
        cases hbe : k == p.1
        · rfl
        · exact absurd (eq_of_beq hbe).symm h
      simpa [setEntry, List.filter_cons, List.lookup, h, h2] using ih

/-- `set` never touches the dirty flag. -/
theorem set_mutated {V : Type} (c : StorageData V) (st : Store) (v : V) :
    ((c.set st v).2.1).mutated = c.mutated := by
  unfold StorageData.set
  by_cases h : c.value.isSome <;> simp [h]

/-- `set` never changes the store's reachability. -/
theorem set_store_reachable {V : Type} (c : StorageData V) (st : Store)
    (v : V) : ((c.set st v).2.2.1).reachable = st.reachable := by
  unfold StorageData.set set_data Store.set_item
  by_cases hr : st.reachable
  · cases hser : c.serialize_as v
    · simp [hr, hser]
    · by_cases hw : st.writable <;> simp [hr, hser, hw]
  · simp [hr]

/-- Claim C1 (code bug): for a fresh cell over a key with no entry in a
reachable store and no prior mutating access, `save()` performs ZERO
store-write calls and leaves the store without the entry, because the
skip test `self.storage_kind.get_item(key).is_ok()` is true for
`Ok(None)`: a reachable store with a missing key still counts as
"containing" the key.  The claim (and the code's own documentation of
`save_on_drop`, "updates happen ... if the key isn't present in the
storage") requires exactly one write persisting the default. -/
theorem claim_C1_code_eval :
    countCell.save emptyStore = some (.ok (), countCell, emptyStore, 1, 0) :=
  rfl

/-- Claim C2 (code bug): `set(7)` on a cell whose cache slot is already
populated drops the new value: `self.value.set(value)` consumes `value`
and fails, and the code then only replaces the slot with a fresh empty
`OnceCell::new()` without re-inserting the value, so the cache ends up
EMPTY, not holding `7`.  Over a store whose write failed, a subsequent
`get()` therefore falls back to the default `0` instead of returning
`7`, contradicting the claim (and the intended clear-then-reset). -/
theorem claim_C2_code_eval :
    (populatedCell.set unreachableStore 7).1 = .error () ∧
    (populatedCell.set unreachableStore 7).2.1.value = none ∧
    ((populatedCell.set unreachableStore 7).2.1.get unreachableStore).map
      (fun r => r.1) = some 0 :=
  ⟨rfl, rfl, rfl⟩

/-- Claim C5 (code bug): with an empty cache over a reachable store that
has NO entry for the key, `is_set()` returns `true`, not `false` as the
claim (and the method's own doc, "whether this glue holds a value or the
Storage has the key") states: `get_item(key).is_ok()` is true for
`Ok(None)`. -/
theorem claim_C5_code_eval : countCell.is_set emptyStore = true := rfl

/-- Claim C3, counterexample: a direct call to the public `get_mut()`
on a populated cell hands out the mutable reference but leaves the dirty
flag false — `StorageData::get_mut` never touches `mutated`. -/
theorem claim_C3_counterexample :
    (populatedCell.get_mut emptyStore).map (fun r => r.2.1.mutated)
      = some false :=
  rfl

/-- Claim C3, amended: the dirty flag is set by the mutable-dereference
operation (`DerefMut::deref_mut`), which marks the cell dirty before
handing out the mutable reference, regardless of whether the caller
mutates; the public `get_mut()` itself leaves the dirty flag
unchanged. -/
theorem claim_C3_amended_thm {V : Type} (c : StorageData V) (st : Store)
    (v : V) (c' : StorageData V) (n : Nat) :
    (c.deref_mut st = some (v, c', n) → c'.mutated = true) ∧
    (c.get_mut st = some (v, c', n) → c'.mutated = c.mutated) := by
  constructor
  · intro h
    have hc := resolve_some { c with mutated := true } st v c' n h
    rw [hc]
  · intro h
    have hc := resolve_some c st v c' n h
    rw [hc]

/-- Witness for the amended C3 at a concrete input. -/
theorem claim_C3_witness :
    countCell.deref_mut emptyStore
      = some (0, { countCell with value := some 0, mutated := true }, 1) ∧
    ({ countCell with value := some 0, mutated := true } :
      StorageData Nat).mutated = true :=
  ⟨rfl,
   (claim_C3_amended_thm countCell emptyStore 0
     { countCell with value := some 0, mutated := true } 1).1 rfl⟩

/-- Claim C4, counterexample: when the store's `removeItem` fails, the
`?` operator in `remove()` returns early, so `finalize_use` is never
reached: the cache slot still holds the old value and the dirty flag is
still true, contradicting "clears the cache and resets dirty on every
outcome". -/
theorem claim_C4_counterexample :
    (dirtyCell.remove badRemoveStore).1 = .error () ∧
    (dirtyCell.remove badRemoveStore).2.1.value = some 5 ∧
    (dirtyCell.remove badRemoveStore).2.1.mutated = true :=
  ⟨rfl, rfl, rfl⟩

/-- Claim C4, amended: `remove()` clears the in-memory cache slot and
resets the dirty flag only when the store removal succeeds (and then
propagates success); when the store's remove operation returns an error,
the error is propagated and the cell — cache slot and dirty flag — is
left entirely unchanged. -/
theorem claim_C4_amended_thm {V : Type} (c : StorageData V) (st : Store) :
    (exceptIsOk (c.remove st).1 = true →
      (c.remove st).2.1.value = none ∧ (c.remove st).2.1.mutated = false) ∧
    (exceptIsOk (c.remove st).1 = false → (c.remove st).2.1 = c) := by
  unfold StorageData.remove
  cases hr : st.remove_item c.key with
  | error e => simp [exceptIsOk]
  | ok st' => simp [exceptIsOk, StorageData.finalize_use]

/-- Witness for the amended C4 at a concrete input: a successful
removal clears the cache and resets the dirty flag. -/
theorem claim_C4_witness :
    exceptIsOk (dirtyCell.remove storeWithCount).1 = true ∧
    ((dirtyCell.remove storeWithCount).2.1.value = none ∧
     (dirtyCell.remove storeWithCount).2.1.mutated = false) :=
  ⟨rfl, (claim_C4_amended_thm dirtyCell storeWithCount).1 rfl⟩

/-- Claim C6 (confirmed): with an empty cache, a successful `get()`
performs exactly one underlying store get call and populates the cache,
and a second `get()` on the resulting cell returns the same value with
zero store get calls and an unchanged cell. -/
theorem claim_C6_cache_once {V : Type} (c : StorageData V) (st : Store)
    (v : V) (c1 : StorageData V) (n : Nat) (h0 : c.value = none)
    (h : c.get st = some (v, c1, n)) :
    n = 1 ∧ c1.get st = some (v, c1, 0) := by
  have hc1 : c1 = { c with value := some v } := resolve_some c st v c1 n h
  constructor
  · unfold StorageData.get StorageData.resolve at h
    rw [h0] at h
    cases hg : get_data_with st c.key c.default_value c.deserialize_as with
    | ok w => rw [hg] at h; simp at h; omega
    | error e =>
      rw [hg] at h
      cases hp : c.panic_on_cannot_deserialize with
      | true => rw [hp] at h; simp at h
      | false => rw [hp] at h; simp at h; omega
  · rw [hc1]
    rfl

/-- Witness for C6 at a concrete input. -/
theorem claim_C6_witness :
    (countCell.value = none ∧
     countCell.get emptyStore
       = some (0, { countCell with value := some 0 }, 1)) ∧
    ((1 : Nat) = 1 ∧
     ({ countCell with value := some 0 } : StorageData Nat).get emptyStore
       = some (0, { countCell with value := some 0 }, 0)) :=
  ⟨⟨rfl, rfl⟩,
   claim_C6_cache_once countCell emptyStore 0
     { countCell with value := some 0 } 1 rfl rfl⟩

/-- Claim C7 (confirmed): for a cell with no prior mutating access
(dirty flag false) over a reachable store that already has an entry for
the key, `save()` performs zero store-write calls, returns success, and
changes neither the cell nor the store. -/
theorem claim_C7_save_skipped {V : Type} (c : StorageData V) (st : Store)
    (h1 : c.mutated = false) (h2 : st.reachable = true)
    ( _h3 : (st.entries.lookup c.key).isSome = true) :
    c.save st = some (.ok (), c, st, 1, 0) :=
  save_skip c st h1 h2

/-- Witness for C7 at a concrete input. -/
theorem claim_C7_witness :
    (countCell.mutated = false ∧ storeWithCount.reachable = true ∧
     (storeWithCount.entries.lookup countCell.key).isSome = true) ∧
    countCell.save storeWithCount
      = some (.ok (), countCell, storeWithCount, 1, 0) :=
  ⟨⟨rfl, rfl, rfl⟩, claim_C7_save_skipped countCell storeWithCount rfl rfl rfl⟩

/-- Claim C8 (confirmed): with an empty cache over a reachable store
whose entry for the key fails to deserialize, a read aborts (modelled
as `none`) when `panic_on_cannot_deserialize` is true, and returns the
default-supplier value with no abort when the flag is false. -/
theorem claim_C8_decode_failure {V : Type} (c : StorageData V) (st : Store)
    (s : String) (h0 : c.value = none) (h1 : st.reachable = true)
    (h2 : st.entries.lookup c.key = some s)
    (h3 : c.deserialize_as s = .error ()) :
    (c.panic_on_cannot_deserialize = true → c.get st = none) ∧
    (c.panic_on_cannot_deserialize = false →
      c.get st = some (c.default_value (),
        { c with value := some (c.default_value ()) }, 1)) := by
  have hg : get_data_with st c.key c.default_value c.deserialize_as
      = .error () := by
    unfold get_data_with Store.get_item
    simp [h1, h2, h3]
  constructor <;> intro hp <;>
    (unfold StorageData.get StorageData.resolve; simp [h0, hg, hp])

/-- Witness for C8 at a concrete input (hard mode: the read aborts). -/
theorem claim_C8_witness :
    (countCell.value = none ∧ storeBadEntry.reachable = true ∧
     storeBadEntry.entries.lookup countCell.key = some "oops" ∧
     countCell.deserialize_as "oops" = .error () ∧
     countCell.panic_on_cannot_deserialize = true) ∧
    countCell.get storeBadEntry = none :=
  ⟨⟨rfl, rfl, rfl, rfl, rfl⟩,
   (claim_C8_decode_failure countCell storeBadEntry "oops"
     rfl rfl rfl rfl).1 rfl⟩

/-- Claim C9 (confirmed): a cell with `save_on_drop` true that received
a mutating access writing `v` through the mutable dereference, when
dropped, saves `v` (serialized as `s`) into a reachable writable store;
the finalization never propagates an error (`drop` yields `some`), and
afterwards the cache slot is cleared and the dirty flag reset. -/
theorem claim_C9_finalize_persists {V : Type} (c : StorageData V)
    (st : Store) (v : V) (c1 : StorageData V) (n : Nat) (s : String)
    (hs : c.save_on_drop = true)
    (hw : c.deref_mut_write st v = some (c1, n))
    (hser : c.serialize_as v = .ok s)
    (hr : st.reachable = true) (hwr : st.writable = true) :
    (c1.drop st).map
      (fun r => (r.2.1.entries.lookup c.key, r.1.value, r.1.mutated))
      = some (some s, none, false) := by
  have hc1 : c1 = { c with value := some v, mutated := true } := by
    unfold StorageData.deref_mut_write StorageData.deref_mut
      StorageData.get_mut at hw
    cases hres : StorageData.resolve { c with mutated := true } st with
    | none => rw [hres] at hw; simp at hw
    | some r =>
      rw [hres] at hw
      simp at hw
      have h2 : r.2.1 = { { c with mutated := true } with value := some r.1 } :=
        resolve_some { c with mutated := true } st r.1 r.2.1 r.2.2
          (by rw [hres])
      obtain ⟨hcell, -⟩ := hw
      rw [← hcell, h2]
  subst hc1
  simp [StorageData.drop, StorageData.finalize_use, StorageData.save,
    StorageData.resolve, set_data, Store.set_item, exceptIsOk, hs, hser,
    hr, hwr, lookup_setEntry]

/-- Witness for C9 at the spec's concrete scenario (key `"count"`,
default `0`, empty store, value mutated to `1`). -/
theorem claim_C9_witness :
    (countCell.save_on_drop = true ∧
     countCell.deref_mut_write emptyStore 1
       = some ({ countCell with value := some 1, mutated := true }, 1) ∧
     countCell.serialize_as 1 = .ok "x" ∧
     emptyStore.reachable = true ∧ emptyStore.writable = true) ∧
    (({ countCell with value := some 1, mutated := true } :
        StorageData Nat).drop emptyStore).map
      (fun r => (r.2.1.entries.lookup countCell.key, r.1.value, r.1.mutated))
      = some (some "x", none, false) :=
  ⟨⟨rfl, rfl, rfl, rfl, rfl⟩,
   claim_C9_finalize_persists countCell emptyStore 1
     { countCell with value := some 1, mutated := true } 1 "x"
     rfl rfl rfl rfl rfl⟩

/-- Claim C10 (confirmed): `set` leaves the dirty flag unchanged (here
stated for the cell of the claim, whose dirty flag is false), and after
a failed `set(v)` over a reachable store, `save()` skips entirely:
it returns success with zero store-write calls and changes nothing. -/
theorem claim_C10_set_frame {V : Type} (c : StorageData V) (st : Store)
    (v : V) (h1 : c.mutated = false) (h2 : st.reachable = true) :
    ((c.set st v).2.1).mutated = c.mutated ∧
    (exceptIsOk (c.set st v).1 = false →
      ((c.set st v).2.1).save ((c.set st v).2.2.1)
        = some (.ok (), (c.set st v).2.1, (c.set st v).2.2.1, 1, 0)) := by
  refine ⟨set_mutated c st v, fun _ => save_skip _ _ ?_ ?_⟩
  · rw [set_mutated c st v, h1]
  · rw [set_store_reachable c st v, h2]

/-- Witness for C10 at a concrete input: a write-failing store. -/
theorem claim_C10_witness :
    (countCell.mutated = false ∧ unwritableStore.reachable = true ∧
     exceptIsOk (countCell.set unwritableStore 7).1 = false) ∧
    ((countCell.set unwritableStore 7).2.1).mutated = countCell.mutated ∧
    ((countCell.set unwritableStore 7).2.1).save
        ((countCell.set unwritableStore 7).2.2.1)
      = some (.ok (), (countCell.set unwritableStore 7).2.1,
              (countCell.set unwritableStore 7).2.2.1, 1, 0) := by
  have t := claim_C10_set_frame countCell unwritableStore 7 rfl rfl
  exact ⟨⟨rfl, rfl, rfl⟩, t.1, t.2 rfl⟩
